import Mathlib

/-!
Verification of the Splice sample organizer (src/splice_organizer.py).

The Python module is embedded shallowly:

* Paths and file names are ASCII strings; the pathlib operations used by the
  code (suffix, stem, name, parts, parents) are re-implemented on strings.
* The regex patterns of the three pattern tables use only literals, character
  classes, optional pieces, alternation, and the anchors of
  re.search; they are embedded as an inductive regex AST with a backtracking
  matcher (reSearch mirrors re.search: a match may start at any position).
  The search texts handed to re.search are lower-cased by the code, so the
  IGNORECASE flag is inert and is not modelled.
* The filesystem is a finite map from path to entry; an entry is a regular
  file (os.link produces one: a hard link is a regular file for exists and
  is never a symlink) or a symbolic link.  File contents are modelled by the
  8-hex-character digest the code derives from them, since only that digest
  is ever observed (md5(read_bytes).hexdigest()[:8]).
* Path.home() is modelled as the constant /Users/isaacfidler (the literal
  user segment appearing in the source's skip list).
* The persisted state dict is an insertion-ordered association list, exactly
  the observable behaviour of a Python dict.
-/

/-! ## List and string helpers -/

/-- Is the first list an initial segment of the second. -/
def listStarts : List Char → List Char → Bool
| [], _ => true
| _ :: _, [] => false
| a :: as, b :: bs => a = b && listStarts as bs

/-- Does the needle occur as a contiguous run inside the haystack. -/
def listOccurs (needle : List Char) : List Char → Bool
| [] => listStarts needle []
| s :: rest => listStarts needle (s :: rest) || listOccurs needle rest

/-- Python `needle in hay` on strings. -/
def strContains (hay needle : String) : Bool :=
  listOccurs needle.data hay.data

/-- ASCII lower-casing, modelling str.lower() on ASCII text. -/
def lowerStr (s : String) : String :=
  String.mk (s.data.map Char.toLower)

/-- Split a character list on a separator character. -/
def splitOnChar (sep : Char) : List Char → List (List Char)
| [] => [[]]
| c :: rest =>
  let r := splitOnChar sep rest
  if c = sep then [] :: r
  else
    match r with
    | [] => [[c]]
    | h :: t => (c :: h) :: t

/-- Join strings with a separator. -/
def joinWith (sep : String) : List String → String
| [] => ""
| [x] => x
| x :: y :: rest => x ++ sep ++ joinWith sep (y :: rest)

/-- Index of the first occurrence of a key in a list, Python list.index. -/
def listIdxOf : List String → String → Option Nat
| [], _ => none
| a :: as, k => if a = k then some 0 else (listIdxOf as k).map (· + 1)

/-- Index (from the front) of the last occurrence of a character. -/
def rIdxOf : List Char → Char → Option Nat
| [], _ => none
| a :: as, c =>
  match rIdxOf as c with
  | some i => some (i + 1)
  | none => if a = c then some 0 else none

/-! ## Path operations (pathlib on ASCII strings) -/

/-- The non-empty slash-separated components of a path string. -/
def pathComponents (s : String) : List String :=
  ((splitOnChar '/' s.data).map String.mk).filter (fun c => c ≠ "")

/-- Python Path(s).parts: a leading "/" element for an absolute path,
then the components. -/
def pyParts (s : String) : List String :=
  match s.data with
  | '/' :: _ => "/" :: pathComponents s
  | _ => pathComponents s

/-- Python Path(s).name: the final component (empty for the root). -/
def pathName (s : String) : String :=
  (pathComponents s).getLastD ""

/-- Python PurePath suffix of a file NAME: the part from the last dot,
provided that dot is neither the first nor the last character. -/
def nameSuffix (n : String) : String :=
  match rIdxOf n.data '.' with
  | some i => if 0 < i ∧ i + 1 < n.data.length then String.mk (n.data.drop i) else ""
  | none => ""

/-- Python PurePath stem of a file NAME: the name with nameSuffix removed. -/
def nameStem (n : String) : String :=
  match rIdxOf n.data '.' with
  | some i => if 0 < i ∧ i + 1 < n.data.length then String.mk (n.data.take i) else n
  | none => n

/-- Python Path(s).suffix. -/
def suffixOf (s : String) : String := nameSuffix (pathName s)

/-- Python Path(s).stem. -/
def stemOf (s : String) : String := nameStem (pathName s)

/-- The names of Path(s).parents in order (nearest ancestor first); root and
current-directory ancestors have empty names and are dropped, matching the
truthiness checks the code applies to parent.name. -/
def parentNames (s : String) : List String :=
  ((pathComponents s).dropLast).reverse

/-! ## Regex AST and matcher

The pattern tables use the regex fragment
literal, character class, R?, (?:R|R), ^, $ only; re.search semantics. -/

/-- Regex AST covering the constructs used by the pattern tables. -/
inductive RE where
| eps : RE
| cls : (Char → Bool) → RE
| seq : RE → RE → RE
| alt : RE → RE → RE
| opt : RE → RE
| bos : RE
| eos : RE

/-- All ways a regex can consume an initial segment of the input.  The Bool
tracks whether the current position is still the start of the whole subject
(for the ^ anchor); a pair is (still-at-start, remaining input). -/
def REmatch : RE → Bool → List Char → List (Bool × List Char)
| .eps, st, s => [(st, s)]
| .cls p, _, s =>
  match s with
  | [] => []
  | c :: rest => if p c then [(false, rest)] else []
| .seq a b, st, s => (REmatch a st s).flatMap (fun r => REmatch b r.1 r.2)
| .alt a b, st, s => REmatch a st s ++ REmatch b st s
| .opt a, st, s => (st, s) :: REmatch a st s
| .bos, st, s => if st then [(st, s)] else []
| .eos, st, s => if s.isEmpty then [(st, s)] else []

/-- Try the regex at every non-initial start position. -/
def searchSuffixes (r : RE) : List Char → Bool
| [] => !(REmatch r false []).isEmpty
| s :: rest => !(REmatch r false (s :: rest)).isEmpty || searchSuffixes r rest

/-- Python re.search: does the regex match starting at some position. -/
def reSearch (r : RE) (s : String) : Bool :=
  !(REmatch r true s.data).isEmpty ||
    (match s.data with
     | [] => false
     | _ :: rest => searchSuffixes r rest)

/-! ## Pattern-building helpers (transliterations of the regex strings) -/

/-- Single literal character. -/
def chr (c : Char) : RE := RE.cls (fun d => d = c)

/-- Literal string. -/
def lit (s : String) : RE :=
  s.data.foldr (fun c r => RE.seq (chr c) r) RE.eps

/-- Python \s on ASCII text. -/
def isSpaceChar (c : Char) : Bool :=
  c = ' ' || c = '\t' || c = '\n' || c = '\x0d' || c = '\x0b' || c = '\x0c'

/-- Character class [\s_/]. -/
def dl : RE := RE.cls (fun c => isSpaceChar c || c = '_' || c = '/')

/-- Character class [_\s]. -/
def du : RE := RE.cls (fun c => isSpaceChar c || c = '_')

/-- Character class [_\s-]. -/
def dh : RE := RE.cls (fun c => isSpaceChar c || c = '_' || c = '-')

/-- Left word boundary (?:^|[\s_/]) before a regex. -/
def lb (r : RE) : RE := RE.seq (RE.alt RE.bos dl) r

/-- Right word boundary (?:[\s_/]|$) after a regex. -/
def rb (r : RE) : RE := RE.seq r (RE.alt dl RE.eos)

/-- Fully delimited word (?:^|[\s_/])s(?:[\s_/]|$). -/
def wd (s : String) : RE := lb (rb (lit s))

/-- Fully delimited word with optional plural s: (?:^|[\s_/])ws?(?:[\s_/]|$). -/
def wdS (s : String) : RE := lb (rb (RE.seq (lit s) (RE.opt (chr 's'))))

/-- Left-delimited word (?:^|[\s_/])s with no right boundary. -/
def lw (s : String) : RE := lb (lit s)

/-- Two literals joined by an optional [_\s-]: a[_\s-]?b. -/
def hy (a b : String) : RE := RE.seq (lit a) (RE.seq (RE.opt dh) (lit b))

/-- Three literals joined by optional [_\s-]: a[_\s-]?b[_\s-]?c. -/
def hy3 (a b c : String) : RE := RE.seq (hy a b) (RE.seq (RE.opt dh) (lit c))

/-! ## Pattern tables (module-level dicts of the source) -/

/-- ONESHOT_CATEGORIES of the source, in declaration order. -/
def ONESHOT_CATEGORIES : List (String × List RE) := [
  ("Kicks", [wdS "kick", wd "kck", wd "bd",
             lb (RE.seq (lit "bass") (RE.seq (RE.opt du) (lit "drum")))]),
  ("Snares", [wdS "snare", wd "snr", wd "sd", lw "rimshot", wdS "clap"]),
  ("HiHats", [RE.seq (lit "hi") (RE.seq (RE.opt dh)
                (RE.seq (lit "hat") (RE.opt (chr 's')))),
              wdS "hat", wd "hh", wd "closed", wd "open"]),
  ("Cymbals", [wdS "cymbal", lw "crash", wd "ride", lw "china", lw "splash"]),
  ("Percussion", [wdS "perc", lw "percussion", wdS "tom", lw "bongo",
                  lw "conga", lw "shaker", lw "tambourine", lw "cowbell",
                  lw "claves", lw "triangle", wd "rim"]),
  ("FX", [wd "fx", wdS "effect", lw "riser", lw "downlifter", wdS "impact",
          lw "sweep", lw "transition", lw "foley", lw "noise", wdS "texture"]),
  ("Synths", [wdS "synth", wdS "lead", wdS "pad", wdS "chord", wdS "arp",
              wdS "pluck", wdS "stab", wd "keys", lw "piano", lw "organ"]),
  ("Bass", [wd "bass", wd "sub", wd "808", lw "reese"]),
  ("Vocals", [wdS "vocal", wd "vox", lw "voice", lw "spoken", lw "chant",
              lw "adlib", lw "shout"])]

/-- LOOP_CATEGORIES of the source, in declaration order. -/
def LOOP_CATEGORIES : List (String × List RE) := [
  ("Drums", [wdS "drum", wdS "beat", lw "groove", wdS "break", wdS "top",
             wd "full"]),
  ("Bass", [wd "bass", wd "sub", wd "808", lw "reese"]),
  ("Synths", [wdS "synth", wdS "lead", wdS "arp", wdS "pluck", wdS "stab",
              wdS "chord", wd "keys", lit "melod"]),
  ("Pads", [wdS "pad", lw "atmosphere", lw "ambient", wdS "texture",
            lw "drone"]),
  ("FX", [wd "fx", wdS "effect", lw "riser", lw "downlifter",
          lw "transition"]),
  ("Percussion", [wdS "perc", wdS "hat", lw "shaker", lw "tambourine"]),
  ("Vocals", [wdS "vocal", wd "vox", lw "voice", lw "hook", lw "chant"])]

/-- GENRE_CATEGORIES of the source: family, then genre, then pattern list. -/
def GENRE_CATEGORIES : List (String × List (String × List RE)) := [
  ("Electronic", [
    ("Techno", [lit "techno", lit "industrial", lit "minimal", lit "ebm",
                hy "hard" "techno", hy "acid" "techno", lit "berlin",
                lit "warehouse"]),
    ("House", [lit "house", hy "deep" "house", hy "tech" "house",
               hy "future" "house", hy "bass" "house", lit "jackin",
               hy "chicago" "house", hy "garage" "house",
               hy "progressive" "house", lit "tropical"]),
    ("Drum_and_Bass", [RE.seq (lit "drum") (RE.seq (RE.opt dh)
                         (RE.seq (RE.alt (lit "and") (RE.alt (lit "&") (lit "n")))
                           (RE.seq (RE.opt dh) (lit "bass")))),
                       lit "dnb", lit "d&b", hy3 "d" "n" "b", lit "jungle",
                       lit "liquid", lit "neuro", hy "jump" "up",
                       lit "breakcore"]),
    ("Dubstep", [lit "dubstep", lit "riddim", lit "brostep", lit "tearout",
                 hy "deep" "dubstep", hy "melodic" "dubstep",
                 hy "colour" "bass", hy "color" "bass"]),
    ("Garage", [hy "uk" "garage", lit "ukg", hy "2" "step",
                hy "speed" "garage", lit "bassline", lit "4x4"]),
    ("Footwork", [lit "footwork", lit "juke", hy "chicago" "footwork",
                  hy "160" "bpm"]),
    ("Trap", [lit "trap", hy "hip" "hop", lit "crunk", hy "dirty" "south",
              lit "atlanta", lit "phonk", lit "memphis", hy "boom" "bap",
              lit "rap", lit "beats"]),
    ("Drill", [lit "drill", hy "uk" "drill", hy "ny" "drill",
               hy "chicago" "drill", hy "brooklyn" "drill"]),
    ("Grime", [lit "grime", hy "uk" "bass", hy "8" "bar", hy "140" "bpm"]),
    ("Trance", [lit "trance", lit "psytrance", hy "psy" "trance",
                hy "progressive" "trance", lit "uplifting", lit "goa",
                lit "hardstyle", hy "hard" "dance"]),
    ("Ambient", [lit "ambient", lit "experimental", lit "downtempo",
                 hy "chill" "out", lit "idm", lit "electronica",
                 lit "soundscape", lit "drone", lit "atmospheric"]),
    ("Disco", [lit "disco", hy "nu" "disco", lit "funk", lit "boogie",
               lit "italo", lit "cosmic"]),
    ("Synthwave", [lit "synthwave", lit "retrowave", lit "outrun",
                   lit "vaporwave", lit "80s", hy "synth" "pop",
                   hy "electro" "pop"]),
    ("Lo-Fi", [hy "lo" "fi", lit "lofi", hy "chill" "hop", lit "chillhop",
               lit "jazzy", lit "dusty", lit "tape", lit "vinyl",
               lit "bedroom"]),
    ("Pop", [lit "pop", lit "edm", lit "mainstream", lit "radio",
             lit "commercial", hy "dance" "pop", hy "future" "pop",
             hy "electro" "pop"]),
    ("Drum_Machines", [lit "808", lit "909", lit "707", lit "727", lit "606",
                       lit "303", hy "cr" "78", hy "tr" "808", hy "tr" "909",
                       lit "linndrum", hy "linn" "drum", lit "dmx",
                       lit "oberheim", hy "sp" "1200", hy "sp" "12",
                       lit "mpc", hy "drum" "machine", hy "vintage" "drum",
                       hy "analog" "drum"])]),
  ("Live", [
    ("Rock", [lit "rock", lit "indie", lit "alternative", lit "metal",
              lit "grunge", hy "hard" "rock", hy "prog" "rock",
              hy "classic" "rock", hy "guitar" "driven"]),
    ("Punk", [lit "punk", hy "post" "punk", hy "new" "wave", hy "no" "wave",
              lit "hardcore", hy "pop" "punk", lit "emo", lit "screamo"]),
    ("Darkwave", [lit "darkwave", hy "dark" "wave", lit "coldwave",
                  hy "cold" "wave", lit "goth", lit "gothic", lit "deathrock",
                  lit "ethereal", hy "witch" "house"]),
    ("Jazz", [lit "jazz", lit "fusion", lit "bebop", lit "swing",
              hy "big" "band", hy "smooth" "jazz", hy "acid" "jazz",
              hy "nu" "jazz", hy "broken" "beat"]),
    ("Soul", [lit "soul", lit "r&b", lit "rnb", hy3 "r" "and" "b",
              lit "motown", hy "neo" "soul", lit "gospel",
              hy3 "rhythm" "and" "blues"]),
    ("Dub", [lit "dub", lit "reggae", lit "roots", lit "dancehall",
             lit "ska", lit "rocksteady", lit "steppas", hy "digital" "dub"]),
    ("Blues", [lit "blues", lit "delta", hy "chicago" "blues",
               hy "electric" "blues", hy "slide" "guitar", hy "12" "bar"]),
    ("Folk", [lit "folk", lit "country", lit "americana", lit "acoustic",
              hy "singer" "songwriter", lit "bluegrass", lit "celtic",
              lit "irish", lit "appalachian"]),
    ("Classical", [lit "classical", lit "orchestral", lit "cinematic",
                   hy "film" "score", lit "strings", lit "brass",
                   lit "woodwind", lit "symphony", lit "chamber", lit "epic",
                   lit "trailer", lit "score"]),
    ("World", [lit "world", lit "ethnic", lit "latin", lit "african",
               lit "afro", hy "middle" "eastern", lit "arabic", lit "indian",
               lit "asian", lit "brazilian", lit "cuban", lit "flamenco",
               lit "tribal", lit "percussion"]),
    ("Acoustic", [lit "acoustic", hy "live" "drum", hy "real" "drum",
                  hy "studio" "drum", lit "recorded", hy "live" "kit",
                  lit "natural", lit "organic"])])]

/-! ## Loop / one-shot classifier (SampleOrganizer._is_loop) -/

/-- The loop folder-indicator substrings, source lines 291-294. -/
def loop_folder_indicators : List String :=
  ["/loops/", "/loop/", "/drum_loops/", "/synth_loops/",
   "/bass_loops/", "/percussion_loops/", "/vocal_loops/",
   "/fx_loops/", "/melodic_loops/", "/music_loops/",
   "/hat_loops/", "/kick_loops/", "/top_loops/"]

/-- The one-shot folder-indicator substrings, source lines 295-296. -/
def oneshot_folder_indicators : List String :=
  ["/one_shots/", "/one-shots/", "/oneshots/", "/one_shot/",
   "/hits/", "/drum_hits/", "/samples/", "/drum_one_shots/"]

/-- re.search(r'^\d{2,3}_', s): two or three leading digits then an
underscore. -/
def bpmStart (s : String) : Bool :=
  match s.data with
  | c0 :: c1 :: c2 :: rest =>
    c0.isDigit && c1.isDigit &&
      (c2 = '_' || (c2.isDigit && (match rest with
                                   | c3 :: _ => c3 = '_'
                                   | [] => false)))
  | _ => false

/-- SampleOrganizer._is_loop: folder indicators first (loop patterns before
one-shot patterns), then filename-stem indicators, default one-shot. -/
def is_loop (path : String) : Bool :=
  let path_lower := lowerStr path
  if loop_folder_indicators.any (fun p => strContains path_lower p) then true
  else if oneshot_folder_indicators.any (fun p => strContains path_lower p) then false
  else
    let filename := lowerStr (stemOf path)
    if strContains filename "_loop" || strContains filename "loop_" then true
    else if bpmStart filename then true
    else false

/-! ## Category classifier (SampleOrganizer._categorize) -/

/-- Walk the parent-folder names, appending those not in the skip list,
stopping once the accumulated list reaches the limit; the length check runs
after every parent exactly as in the Python loop. -/
def collectParents (skip : List String) (limit : Nat)
    (acc : List String) : List String → List String
| [] => acc
| n :: rest =>
  let acc' := if lowerStr n ∉ skip ∧ n ≠ "" then acc ++ [n] else acc
  if limit ≤ acc'.length then acc' else collectParents skip limit acc' rest

/-- skip_folders of _categorize. -/
def catSkip : List String := ["sounds", "packs", "splice", "samples", "audio"]

/-- The composite search text of _categorize: stem, then up to four
non-structural ancestor names, joined by spaces and lower-cased. -/
def catSearchText (path : String) : String :=
  lowerStr (joinWith " "
    (collectParents catSkip 5 [stemOf path] (parentNames path)))

/-- The category loop of _categorize over one pattern table: first category
with any matching pattern wins, sentinel "Other" otherwise. -/
def categorizeTable : List (String × List RE) → String → String
| [], _ => "Other"
| (c, ps) :: rest, s =>
  if ps.any (fun p => reSearch p s) then c else categorizeTable rest s

/-- SampleOrganizer._categorize. -/
def categorize (path : String) (isLp : Bool) : String :=
  categorizeTable (if isLp then LOOP_CATEGORIES else ONESHOT_CATEGORIES)
    (catSearchText path)

/-! ## Genre classifier (SampleOrganizer._detect_genres) -/

/-- Skip set of the parents loop in _detect_genres. -/
def genreSkip : List String :=
  ["sounds", "packs", "splice", "samples", "audio", "users", "isaacfidler"]

/-- Pack-name seed of the genre search text: the segment after the first
"packs" segment, plus the one after it when present; empty when "packs" is
absent or has no successor (the ValueError/IndexError is swallowed). -/
def genreSeed (path : String) : List String :=
  let parts := pyParts path
  match listIdxOf parts "packs" with
  | none => []
  | some i =>
    match parts.get? (i + 1) with
    | none => []
    | some pk =>
      match parts.get? (i + 2) with
      | some nxt => [pk, nxt]
      | none => [pk]

/-- The composite search text of _detect_genres. -/
def genreSearchText (path : String) : String :=
  lowerStr (joinWith " "
    (collectParents genreSkip 6 (genreSeed path) (parentNames path)))

/-- The (family, genre) scan of _detect_genres over a genre table: a genre is
added on its first matching pattern; duplicates are not re-added. -/
def detectGenresTable (t : List (String × List (String × List RE)))
    (s : String) : List (String × String) :=
  t.foldl (fun acc fam =>
    fam.2.foldl (fun acc g =>
      if g.2.any (fun p => reSearch p s) then
        (if (fam.1, g.1) ∈ acc then acc else acc ++ [(fam.1, g.1)])
      else acc) acc) []

/-- SampleOrganizer._detect_genres. -/
def detect_genres (path : String) : List (String × String) :=
  detectGenresTable GENRE_CATEGORIES (genreSearchText path)

/-! ## Unique name generator (SampleOrganizer._generate_unique_name) -/

/-- ORGANIZED_DIR; Path.home() is modelled as /Users/isaacfidler. -/
def ORGANIZED_DIR : String := "/Users/isaacfidler/Splice-Organized"

/-- The alphanumeric code points of the Latin-1 supplement: exactly the
characters in U+0080..U+00FF that Python's \w matches (ordinal indicators,
superscript digits, the micro sign, the vulgar fractions, and the Latin-1
letters, minus the multiplication and division signs U+00D7 and U+00F7). -/
def latin1AlnumChar (c : Char) : Bool :=
  c.toNat = 0xAA || c.toNat = 0xB2 || c.toNat = 0xB3 || c.toNat = 0xB5 ||
  c.toNat = 0xB9 || c.toNat = 0xBA || c.toNat = 0xBC || c.toNat = 0xBD ||
  c.toNat = 0xBE ||
  (0xC0 ≤ c.toNat && c.toNat ≤ 0xFF && c.toNat ≠ 0xD7 && c.toNat ≠ 0xF7)

/-- The Python regex class \w on str patterns: underscore or a Unicode
alphanumeric (str.isalnum), which is wider than ASCII.  Modelled exactly on
the code points up to U+00FF (ASCII plus the Latin-1 supplement); code
points above U+00FF are treated as non-word, a boundary of the model that
no theorem's input crosses. -/
def pyWordChar (c : Char) : Bool :=
  c.isAlphanum || c = '_' || latin1AlnumChar c

/-- re.sub(r'[^\w\-]', '_', pack_name)[:30]: replace every character that is
not a word character or hyphen, then keep the first 30 characters. -/
def sanitizePack (pack : String) : String :=
  String.mk ((pack.data.map (fun c => if pyWordChar c || c = '-' then c else '_')).take 30)

/-- Pack name of a source path: the segment after the first "packs" segment,
"Unknown" when absent (ValueError or IndexError). -/
def packNameOf (source : String) : String :=
  let parts := pyParts source
  match listIdxOf parts "packs" with
  | none => "Unknown"
  | some i => (parts.get? (i + 1)).getD "Unknown"

/-! ## Filesystem and state model -/

/-- Kind of an on-disk entry.  os.link creates a regular file (a hard link is
not a symlink); symlink entries can only pre-exist in the initial state. -/
inductive EntryKind where
| file : EntryKind
| symlink : EntryKind
deriving DecidableEq

/-- An on-disk entry: its kind and the 8-hex-character digest of its bytes
(file contents are observed only through md5(read_bytes).hexdigest()[:8]). -/
structure FSEntry where
  kind : EntryKind
  hash8 : String
deriving DecidableEq

/-- The disk: a finite map from absolute path to entry. -/
abbrev FS := List (String × FSEntry)

/-- Entry stored at a path, if any. -/
def entryAt : FS → String → Option FSEntry
| [], _ => none
| (q, e) :: rest, p => if q = p then some e else entryAt rest p

/-- Path.exists (symlinks are assumed non-dangling, the code never creates
dangling ones itself). -/
def existsAt (fs : FS) (p : String) : Bool := (entryAt fs p).isSome

/-- Path.is_symlink: true exactly for symlink entries, never for hard
links. -/
def isSymlinkAt (fs : FS) (p : String) : Bool :=
  match entryAt fs p with
  | some e => e.kind = EntryKind.symlink
  | none => false

/-- Path.is_file-like check on the model. -/
def isFileAt (fs : FS) (p : String) : Bool :=
  match entryAt fs p with
  | some e => e.kind = EntryKind.file
  | none => false

/-- Path.unlink on the model. -/
def eraseAt : FS → String → FS
| [], _ => []
| (q, e) :: rest, p => if q = p then eraseAt rest p else (q, e) :: eraseAt rest p

/-- Digest of the bytes at a path (empty when the path is absent; the code
only reads existing sources). -/
def hash8At (fs : FS) (p : String) : String :=
  match entryAt fs p with
  | some e => e.hash8
  | none => ""

/-- SampleOrganizer._create_link: unlink whatever occupies the link path,
then os.link the source there (a regular-file entry sharing the source
bytes). -/
def create_link (fs : FS) (source lnk : String) : FS :=
  eraseAt fs lnk ++ [(lnk, ⟨EntryKind.file, hash8At fs source⟩)]

/-- The persisted "files" table: insertion-ordered source path to link-path
list, the observable behaviour of the Python dict. -/
abbrev Files := List (String × List String)

/-- Dict lookup. -/
def dictGet : Files → String → Option (List String)
| [], _ => none
| (q, v) :: rest, k => if q = k then some v else dictGet rest k

/-- Dict key deletion. -/
def dictDel : Files → String → Files
| [], _ => []
| (q, v) :: rest, k => if q = k then dictDel rest k else (q, v) :: dictDel rest k

/-- SampleOrganizer._generate_unique_name on the model. -/
def generate_unique_name (fs : FS) (files : Files) (source : String) : String :=
  let safe := sanitizePack (packNameOf source)
  let base := safe ++ "__" ++ stemOf source ++ suffixOf source
  if (entryAt fs (ORGANIZED_DIR ++ "/All/" ++ base)).isNone ∧ dictGet files source = none
  then base
  else
    match dictGet files source with
    | some (l :: _) => pathName l
    | some [] => safe ++ "__" ++ stemOf source ++ "_" ++ hash8At fs source ++ suffixOf source
    | none => safe ++ "__" ++ stemOf source ++ "_" ++ hash8At fs source ++ suffixOf source

/-- The whole observable world: the disk, the in-memory state table, and the
table last written to the state file (dry_run gates the write). -/
structure World where
  fs : FS
  files : Files
  saved : Files
deriving DecidableEq

/-- The ordered link-path list process_file computes for a source: the
canonical All link, the type/category link, then one link per detected genre
or the Genres/Other fallback. -/
def link_targets (fs : FS) (files : Files) (source : String) : List String :=
  let isLp := is_loop source
  let cat := categorize source isLp
  let genres := detect_genres source
  let uname := generate_unique_name fs files source
  let allLink := ORGANIZED_DIR ++ "/All/" ++ uname
  let catLink := ORGANIZED_DIR ++ "/" ++ (if isLp then "Loops" else "One_Shots")
                   ++ "/" ++ cat ++ "/" ++ uname
  let genreLinks :=
    if genres.isEmpty then [ORGANIZED_DIR ++ "/Genres/Other/" ++ uname]
    else genres.map (fun pg => ORGANIZED_DIR ++ "/Genres/" ++ pg.1 ++ "/" ++ pg.2 ++ "/" ++ uname)
  allLink :: catLink :: genreLinks

/-- SampleOrganizer.process_file: the three skip guards, the dry-run early
return, then link creation, state recording, and persistence. -/
def process_file (dry : Bool) (w : World) (source : String) : World × Bool :=
  if lowerStr (suffixOf source) ≠ ".wav" then (w, false)
  else if ¬ existsAt w.fs source then (w, false)
  else if (dictGet w.files source).isSome then (w, false)
  else if dry then (w, true)
  else
    let links := link_targets w.fs w.files source
    let fs' := links.foldl (fun a l => create_link a source l) w.fs
    let files' := w.files ++ [(source, links)]
    ({ fs := fs', files := files', saved := files' }, true)

/-- The unlink loop shared by remove_file and validate: delete every recorded
link that is still a symlink, skip everything else. -/
def unlinkSymlinks (fs : FS) (links : List String) : FS :=
  links.foldl (fun a l => if isSymlinkAt a l then eraseAt a l else a) fs

/-- SampleOrganizer.remove_file. -/
def remove_file (dry : Bool) (w : World) (source : String) : World :=
  match dictGet w.files source with
  | none => w
  | some links =>
    if dry then w
    else
      { fs := unlinkSymlinks w.fs links,
        files := dictDel w.files source,
        saved := dictDel w.files source }

/-- The scan loop of validate: for each recorded source missing from the live
disk, unlink its symlinked links and mark the key for deletion. -/
def validateScan : Files → FS → FS × List String
| [], fs => (fs, [])
| (s, links) :: rest, fs =>
  if existsAt fs s then validateScan rest fs
  else
    let r := validateScan rest (unlinkSymlinks fs links)
    (r.1, s :: r.2)

/-- SampleOrganizer.validate: the disk deletions are unconditional; only the
state-file write is gated by dry_run. -/
def validate (dry : Bool) (w : World) : World :=
  let sc := validateScan w.files w.fs
  let files' := sc.2.foldl (fun d k => dictDel d k) w.files
  { fs := sc.1, files := files', saved := if dry then w.saved else files' }

/-! ## State loading (SampleOrganizer._load_state) -/

/-- A JSON value, the result of a successful json.loads. -/
inductive Json where
| null : Json
| bool : Bool → Json
| num : Int → Json
| str : String → Json
| arr : List Json → Json
| obj : List (String × Json) → Json

/-- What reading the state file can yield: no file, an OSError while reading,
content json.loads rejects, or a parsed JSON value. -/
inductive ReadResult where
| noFile : ReadResult
| ioError : ReadResult
| badJson : ReadResult
| json : Json → ReadResult

/-- The empty state table the code falls back to. -/
def emptyStateJson : Json := Json.obj [("files", Json.obj [])]

/-- SampleOrganizer._load_state: a missing file and a JSONDecodeError both
yield the empty table; an OSError from read_text has no handler and
propagates; any parsed JSON value is returned as the state unvalidated. -/
def load_state : ReadResult → Except Unit Json
| ReadResult.noFile => Except.ok emptyStateJson
| ReadResult.ioError => Except.error ()
| ReadResult.badJson => Except.ok emptyStateJson
| ReadResult.json v => Except.ok v

/-! ## Concrete example worlds used to evaluate the operations -/

/-- A source file inside the watched packs tree. -/
def src1 : String := "/Users/isaacfidler/Splice/sounds/packs/P/kick.wav"

/-- A world holding just that source file, nothing organized yet. -/
def w0 : World :=
  { fs := [(src1, ⟨EntryKind.file, "ab12cd34"⟩)], files := [], saved := [] }

/-- A second, already-recorded source key. -/
def srcQ : String := "/Users/isaacfidler/Splice/sounds/packs/Q/old.wav"

/-- Its recorded canonical link. -/
def linkQ : String := "/Users/isaacfidler/Splice-Organized/All/Q__old.wav"

/-- A world where srcQ is already recorded and src1 is a fresh source. -/
def w10 : World :=
  { fs := [(src1, ⟨EntryKind.file, "ab12cd34"⟩), (linkQ, ⟨EntryKind.file, "99999999"⟩)],
    files := [(srcQ, [linkQ])], saved := [(srcQ, [linkQ])] }

/-- A recorded source whose file is gone from disk. -/
def srcC2 : String := "/Users/isaacfidler/Splice/sounds/packs/P/a.wav"

/-- Its recorded link, still a symlink on disk. -/
def linkC2 : String := "/Users/isaacfidler/Splice-Organized/All/P__a.wav"

/-- A world where srcC2 was deleted externally but its symlink remains. -/
def wC2 : World :=
  { fs := [(linkC2, ⟨EntryKind.symlink, ""⟩)],
    files := [(srcC2, [linkC2])], saved := [(srcC2, [linkC2])] }

/-! ## Generic lemmas about the embedded operations -/

/-- The category loop yields a declared key or the sentinel. -/
theorem categorizeTable_mem (t : List (String × List RE)) (s : String) :
    categorizeTable t s = "Other" ∨ categorizeTable t s ∈ t.map Prod.fst := by
  induction t with
  | nil => exact Or.inl rfl
  | cons hd tl ih =>
    obtain ⟨c, ps⟩ := hd
    by_cases h : (ps.any fun p => reSearch p s) = true
    · simp [categorizeTable, h]
    · rcases ih with h1 | h1 <;> simp [categorizeTable, h, h1]

/-- Appending a fresh key does not change other lookups. -/
theorem dictGet_append_ne (d : Files) (p k : String) (v : List String)
    (h : k ≠ p) : dictGet (d ++ [(p, v)]) k = dictGet d k := by
  induction d with
  | nil => simp [dictGet, Ne.symm h]
  | cons hd tl ih =>
    obtain ⟨q, w⟩ := hd
    by_cases hq : q = k <;> simp [dictGet, hq, ih]

/-- Appending a key absent from the table makes it retrievable. -/
theorem dictGet_append_self (d : Files) (p : String) (v : List String)
    (h : dictGet d p = none) : dictGet (d ++ [(p, v)]) p = some v := by
  induction d with
  | nil => simp [dictGet]
  | cons hd tl ih =>
    obtain ⟨q, w⟩ := hd
    by_cases hq : q = p
    · simp [dictGet, hq] at h
    · simp [dictGet, hq] at h ⊢
      exact ih h

/-- Unlink-then-relink characterises the entry table of create_link. -/
theorem entryAt_erase_append (fs : FS) (l x : String) (e : FSEntry) :
    entryAt (eraseAt fs l ++ [(l, e)]) x =
      if x = l then some e else entryAt fs x := by
  induction fs with
  | nil =>
    by_cases h : x = l
    · simp [entryAt, eraseAt, h]
    · simp [entryAt, eraseAt, h, Ne.symm h]
  | cons hd tl ih =>
    obtain ⟨q, w⟩ := hd
    by_cases hq : q = l
    · subst hq
      by_cases hx : x = q
      · subst hx
        simp [entryAt, eraseAt, ih]
      · simp [entryAt, eraseAt, hx, Ne.symm hx, ih]
    · by_cases hqx : q = x
      · subst hqx
        simp [entryAt, eraseAt, hq, Ne.symm hq]
      · simp [entryAt, eraseAt, hq, hqx, ih]

/-- Entry table of create_link. -/
theorem entryAt_create_link (fs : FS) (src l x : String) :
    entryAt (create_link fs src l) x =
      if x = l then some ⟨EntryKind.file, hash8At fs src⟩ else entryAt fs x := by
  unfold create_link
  exact entryAt_erase_append fs l x _

/-- After the link-creation fold, every created path (and every path already
holding a regular file) holds a regular file. -/
theorem isFileAt_foldl_create (src : String) (ls : List String) (fs : FS)
    (x : String) (h : x ∈ ls ∨ isFileAt fs x = true) :
    isFileAt (ls.foldl (fun a l => create_link a src l) fs) x = true := by
  induction ls generalizing fs with
  | nil =>
    rcases h with h | h
    · cases h
    · simpa using h
  | cons l rest ih =>
    simp only [List.foldl_cons]
    apply ih
    by_cases hx : x = l
    · right
      simp [isFileAt, entryAt_create_link, hx]
    · rcases h with h | h
      · rcases List.mem_cons.mp h with h1 | h1
        · exact absurd h1 hx
        · exact Or.inl h1
      · right
        simp only [isFileAt, entryAt_create_link, if_neg hx]
        simpa [isFileAt] using h

/-! ## Claim C9 -/

/-- C9 counterexample: an unreadable state file (read_text raising OSError)
is NOT turned into the empty table; the error propagates, because only
json.JSONDecodeError is caught. -/
theorem C9_counterexample_unreadable_raises :
    load_state ReadResult.ioError = Except.error ()
    ∧ load_state ReadResult.ioError ≠ Except.ok emptyStateJson :=
  ⟨rfl, fun h => Except.noConfusion h⟩

/-- C9 (amended): an absent state file, or one whose contents fail JSON
parsing, yields the empty table instead of a fatal error; an unreadable file
is outside this guarantee. -/
theorem C9_amended_malformed_yields_empty :
    load_state ReadResult.badJson = Except.ok emptyStateJson
    ∧ load_state ReadResult.noFile = Except.ok emptyStateJson :=
  ⟨rfl, rfl⟩

/-! ## Claim C4 -/

/-- C4 counterexample: a path containing the one-shot indicator "/one_shots/"
whose stem contains "_loop" is still classified as a loop when a loop folder
indicator also occurs, because the loop indicators are checked first. -/
theorem C4_counterexample_loop_folder_wins :
    strContains (lowerStr "/sounds/loops/one_shots/a_loop.wav") "/one_shots/" = true
    ∧ strContains (stemOf "/sounds/loops/one_shots/a_loop.wav") "_loop" = true
    ∧ is_loop "/sounds/loops/one_shots/a_loop.wav" = true := by decide

/-- C4 (amended): for every path containing a one-shot folder indicator and
no loop folder indicator, whose stem contains "_loop", the classifier
returns one-shot: the folder rule decides before the filename rule. -/
theorem C4_amended_oneshot_folder_wins (p : String)
    (hos : (oneshot_folder_indicators.any fun q => strContains (lowerStr p) q) = true)
    (hnoloop : (loop_folder_indicators.any fun q => strContains (lowerStr p) q) = false)
    (hstem : strContains (lowerStr (stemOf p)) "_loop" = true) :
    is_loop p = false := by
  simp [is_loop, hos, hnoloop]

/-- C4 witness: a concrete one-shot-folder path with a "_loop" stem. -/
theorem C4_amended_witness :
    is_loop "/pack/one_shots/a_loop.wav" = false :=
  C4_amended_oneshot_folder_wins "/pack/one_shots/a_loop.wav"
    (by decide) (by decide) (by decide)

/-! ## Claim C5 -/

/-- C5 counterexample: in ONESHOT_CATEGORIES, "Bass" (position 7) is declared
before "Vocals" (position 8) and the search text "kick 808 vox" matches a
pattern of each, yet the classifier returns "Kicks", not "Bass": an earlier
matching category preempts A. -/
theorem C5_counterexample_earlier_category_preempts :
    ONESHOT_CATEGORIES.map Prod.fst =
      ["Kicks", "Snares", "HiHats", "Cymbals", "Percussion", "FX", "Synths",
       "Bass", "Vocals"]
    ∧ ((ONESHOT_CATEGORIES.getD 7 ("", [])).2.any fun p => reSearch p "kick 808 vox") = true
    ∧ ((ONESHOT_CATEGORIES.getD 8 ("", [])).2.any fun p => reSearch p "kick 808 vox") = true
    ∧ categorizeTable ONESHOT_CATEGORIES "kick 808 vox" = "Kicks"
    ∧ ("Kicks" : String) ≠ "Bass" := by decide

/-- C5 (amended): if A is declared before B, both have a matching pattern,
and additionally no category declared before A has a matching pattern, the
classifier returns A: the first category in table order with any matching
pattern wins. -/
theorem C5_amended_first_match_wins
    (pre mid post : List (String × List RE)) (A B : String)
    (ap bp : List RE) (text : String)
    (hpre : ∀ cp ∈ pre, ∀ p ∈ cp.2, reSearch p text = false)
    (ha : ∃ p ∈ ap, reSearch p text = true)
    (hb : ∃ p ∈ bp, reSearch p text = true) :
    categorizeTable (pre ++ (A, ap) :: mid ++ (B, bp) :: post) text = A := by
  induction pre with
  | nil =>
    have hany : (ap.any fun p => reSearch p text) = true := by
      rcases ha with ⟨p, hp, hs⟩
      exact List.any_eq_true.mpr ⟨p, hp, hs⟩
    simp [categorizeTable, hany]
  | cons hd tl ih =>
    obtain ⟨c, ps⟩ := hd
    have hnone : (ps.any fun p => reSearch p text) = false := by
      by_contra h
      rcases List.any_eq_true.mp (eq_true_of_ne_false h) with ⟨p, hp, hs⟩
      have := hpre (c, ps) (List.mem_cons_self _ _) p hp
      rw [this] at hs
      cases hs
    simp only [List.cons_append, categorizeTable, hnone, Bool.false_eq_true,
      if_false]
    exact ih fun cp hcp p hp => hpre cp (List.mem_cons_of_mem _ hcp) p hp

/-- C5 witness: a three-category table where the categories before A do not
match; the classifier returns A. -/
theorem C5_amended_witness :
    categorizeTable [("Zulu", [lit "zzz"]), ("Alpha", [lit "aa"]),
      ("Beta", [lit "aa"])] "aa track" = "Alpha" :=
  C5_amended_first_match_wins [("Zulu", [lit "zzz"])] [] [] "Alpha" "Beta"
    [lit "aa"] [lit "aa"] "aa track" (by decide) (by decide) (by decide)

/-! ## Claim C6 -/

/-- C6: the label of the category classifier is always a declared key of the
selected taxonomy or the sentinel "Other", and never empty; the classifier
is a pure function, so two calls on the same input agree. -/
theorem C6_category_label_wellformed (path : String) (isLp : Bool) :
    (categorize path isLp = "Other" ∨
      categorize path isLp ∈
        (if isLp then LOOP_CATEGORIES else ONESHOT_CATEGORIES).map Prod.fst)
    ∧ categorize path isLp ≠ ""
    ∧ categorize path isLp = categorize path isLp := by
  have hmem := categorizeTable_mem
    (if isLp then LOOP_CATEGORIES else ONESHOT_CATEGORIES) (catSearchText path)
  refine ⟨hmem, ?_, rfl⟩
  rcases hmem with h | h
  · rw [show categorize path isLp =
        categorizeTable (if isLp then LOOP_CATEGORIES else ONESHOT_CATEGORIES)
          (catSearchText path) from rfl, h]
    decide
  · rw [show categorize path isLp =
        categorizeTable (if isLp then LOOP_CATEGORIES else ONESHOT_CATEGORIES)
          (catSearchText path) from rfl]
    cases isLp with
    | false =>
      simp only [if_false, Bool.false_eq_true] at h ⊢
      have hall : ∀ x ∈ ONESHOT_CATEGORIES.map Prod.fst, x ≠ "" := by decide
      exact hall _ h
    | true =>
      simp only [if_true] at h ⊢
      have hall : ∀ x ∈ LOOP_CATEGORIES.map Prod.fst, x ≠ "" := by decide
      exact hall _ h

/-! ## Claim C7 -/

/-- C7: for a source that is already a key of the Link Record with a
non-empty recorded link list, the unique-name generator returns the base
name of the first (canonical) link, independently of the disk; in
particular two calls with the same state agree. -/
theorem C7_known_key_idempotent_name (fs : FS) (files : Files)
    (source l : String) (rest : List String)
    (h : dictGet files source = some (l :: rest)) :
    generate_unique_name fs files source = pathName l
    ∧ generate_unique_name fs files source = generate_unique_name fs files source := by
  refine ⟨?_, rfl⟩
  simp [generate_unique_name, h]

/-- C7 witness at a concrete known key. -/
theorem C7_witness :
    generate_unique_name []
      [("/s/packs/P/a.wav", ["/o/All/P__a.wav"])] "/s/packs/P/a.wav" = "P__a.wav" :=
  (C7_known_key_idempotent_name [] [("/s/packs/P/a.wav", ["/o/All/P__a.wav"])]
    "/s/packs/P/a.wav" "/o/All/P__a.wav" [] (by decide)).1

/-! ## Claim C3 -/

/-- On ASCII characters (and only there) the character kept by the
sanitizer is exactly one inside [A-Za-z0-9_-]. -/
theorem sanitize_char_eq (c : Char) (h : c.toNat < 128) :
    (if pyWordChar c || c = '-' then c else '_') =
    (if ('A' ≤ c ∧ c ≤ 'Z') ∨ ('a' ≤ c ∧ c ≤ 'z') ∨ ('0' ≤ c ∧ c ≤ '9')
        ∨ c = '_' ∨ c = '-' then c else '_') := by
  have hl : latin1AlnumChar c = false := by
    simp only [latin1AlnumChar, Bool.or_eq_false_iff, Bool.and_eq_false_iff,
      decide_eq_false_iff_not]
    omega
  have hiff : (pyWordChar c || c = '-') = true ↔
      (('A' ≤ c ∧ c ≤ 'Z') ∨ ('a' ≤ c ∧ c ≤ 'z') ∨ ('0' ≤ c ∧ c ≤ '9')
        ∨ c = '_' ∨ c = '-') := by
    simp [pyWordChar, hl, Char.isAlphanum, Char.isAlpha, Char.isDigit,
          Char.isUpper, Char.isLower, Char.le_def, UInt32.le_def, or_assoc]
  by_cases hb : (pyWordChar c || c = '-') = true
  · rw [if_pos hb, if_pos (hiff.mp hb)]
  · rw [if_neg hb, if_neg (fun hp => hb (hiff.mpr hp))]

/-- C3 counterexample: the pack name "Café" refutes the claim that every
character outside [A-Za-z0-9_-] is replaced: Python's \w is Unicode-aware,
so re.sub keeps the word character é, while the claim's replacement rule
would turn it into an underscore. -/
theorem C3_counterexample_unicode_kept :
    sanitizePack "Café" = "Café"
    ∧ String.mk ((("Café" : String).data.map fun c =>
        if ('A' ≤ c ∧ c ≤ 'Z') ∨ ('a' ≤ c ∧ c ≤ 'z') ∨ ('0' ≤ c ∧ c ≤ '9')
           ∨ c = '_' ∨ c = '-' then c else '_').take 30) = "Caf_"
    ∧ ("Café" : String) ≠ "Caf_" := by decide

/-- C3 (amended): on ASCII pack names the sanitizer replaces every
character outside [A-Za-z0-9_-] with an underscore and truncates to 30
characters (non-ASCII word characters are kept by the code), and under the
fresh conditions (no occupant of the candidate All path, source not a known
key) the generated name is sanitized pack, two underscores, stem,
extension. -/
theorem C3_sanitizer_and_fresh_candidate (pack : String) (fs : FS)
    (files : Files) (source : String)
    (hAscii : (pack.data.all fun c => c.toNat < 128) = true)
    (hfresh : entryAt fs (ORGANIZED_DIR ++ "/All/" ++
      (sanitizePack (packNameOf source) ++ "__" ++ stemOf source ++ suffixOf source)) = none)
    (hunknown : dictGet files source = none) :
    sanitizePack pack =
      String.mk ((pack.data.map fun c =>
        if ('A' ≤ c ∧ c ≤ 'Z') ∨ ('a' ≤ c ∧ c ≤ 'z') ∨ ('0' ≤ c ∧ c ≤ '9')
           ∨ c = '_' ∨ c = '-' then c else '_').take 30)
    ∧ generate_unique_name fs files source =
        sanitizePack (packNameOf source) ++ "__" ++ stemOf source ++ suffixOf source := by
  constructor
  · have hmap : pack.data.map (fun c => if pyWordChar c || c = '-' then c else '_') =
        pack.data.map (fun c : Char =>
          if ('A' ≤ c ∧ c ≤ 'Z') ∨ ('a' ≤ c ∧ c ≤ 'z') ∨ ('0' ≤ c ∧ c ≤ '9')
             ∨ c = '_' ∨ c = '-' then c else '_') := by
      apply List.map_congr_left
      intro c hc
      apply sanitize_char_eq c
      have := List.all_eq_true.mp hAscii c hc
      simpa using this
    rw [sanitizePack, hmap]
  · simp [generate_unique_name, hfresh, hunknown]

/-- C3 witness: a pack name with a space and an exclamation mark, and a
fresh source below a packs segment. -/
theorem C3_witness :
    sanitizePack "Dark Techno!" =
      String.mk ((("Dark Techno!" : String).data.map fun c =>
        if ('A' ≤ c ∧ c ≤ 'Z') ∨ ('a' ≤ c ∧ c ≤ 'z') ∨ ('0' ≤ c ∧ c ≤ '9')
           ∨ c = '_' ∨ c = '-' then c else '_').take 30)
    ∧ generate_unique_name [] [] "/packs/P/kick.wav" =
        sanitizePack (packNameOf "/packs/P/kick.wav") ++ "__"
          ++ stemOf "/packs/P/kick.wav" ++ suffixOf "/packs/P/kick.wav" :=
  C3_sanitizer_and_fresh_candidate "Dark Techno!" [] [] "/packs/P/kick.wav"
    (by decide) (by decide) (by decide)

/-! ## Claim C8 -/

/-- C8: process_file returns false with the Link Record unchanged exactly
when the extension is not .wav, the file does not exist, or the source is
already recorded; otherwise, outside dry-run, it creates the computed links
on disk as regular files, records the source key with the full ordered link
list, and returns true. -/
theorem C8_process_guards_iff (dry : Bool) (w : World) (p : String) :
    (((process_file dry w p).2 = false ∧ (process_file dry w p).1.files = w.files) ↔
      (lowerStr (suffixOf p) ≠ ".wav" ∨ existsAt w.fs p = false
        ∨ (dictGet w.files p).isSome = true))
    ∧ (dry = false →
        lowerStr (suffixOf p) = ".wav" →
        existsAt w.fs p = true →
        (dictGet w.files p).isSome = false →
        (process_file false w p).2 = true
        ∧ dictGet (process_file false w p).1.files p = some (link_targets w.fs w.files p)
        ∧ ((link_targets w.fs w.files p).all fun l =>
            isFileAt (process_file false w p).1.fs l) = true) := by
  constructor
  · by_cases h1 : lowerStr (suffixOf p) ≠ ".wav"
    · simp [process_file, h1]
    · by_cases h2 : existsAt w.fs p
      · by_cases h3 : (dictGet w.files p).isSome
        · simp [process_file, h1, h2, h3]
        · by_cases hd : dry
          · simp [process_file, h1, h2, h3, hd]
          · simp [process_file, h1, h2, h3, hd]
      · simp [process_file, h1, h2]
  · intro _ h1 h2 h3
    have h1' : ¬ lowerStr (suffixOf p) ≠ ".wav" := fun hh => hh h1
    have h3' : dictGet w.files p = none := by
      cases hg : dictGet w.files p
      · rfl
      · rw [hg] at h3
        cases h3
    refine ⟨?_, ?_, ?_⟩
    · simp [process_file, h1', h2, h3]
    · simp [process_file, h1', h2, h3]
      exact dictGet_append_self w.files p _ h3'
    · simp [process_file, h1', h2, h3]
      exact fun x hx => isFileAt_foldl_create p _ w.fs x (Or.inl hx)

/-- C8 witness: in a world holding exactly one fresh .wav source, the guard
conditions all fail, processing succeeds, and the key, links, and files
appear. -/
theorem C8_witness :
    (process_file false w0 src1).2 = true
    ∧ dictGet (process_file false w0 src1).1.files src1 =
        some (link_targets w0.fs w0.files src1)
    ∧ ((link_targets w0.fs w0.files src1).all fun l =>
        isFileAt (process_file false w0 src1).1.fs l) = true :=
  (C8_process_guards_iff false w0 src1).2 rfl (by decide) (by decide) (by decide)

/-! ## Claim C10 -/

/-- C10: a successful non-dry-run process_file changes no mapping other than
the processed source key: every other key looks up to the same list after
the call as before. -/
theorem C10_process_frame (w : World) (p k : String)
    (helig : (process_file false w p).2 = true) (hk : k ≠ p) :
    dictGet (process_file false w p).1.files k = dictGet w.files k := by
  by_cases h1 : lowerStr (suffixOf p) ≠ ".wav"
  · simp [process_file, h1]
  · by_cases h2 : existsAt w.fs p
    · by_cases h3 : (dictGet w.files p).isSome
      · simp [process_file, h1, h2, h3]
      · simp [process_file, h1, h2, h3]
        exact dictGet_append_ne w.files p k _ hk
    · simp [process_file, h1, h2]

/-- C10 witness: processing a fresh source leaves the pre-existing recorded
key srcQ mapped to the same link list. -/
theorem C10_witness :
    dictGet (process_file false w10 src1).1.files srcQ = dictGet w10.files srcQ :=
  C10_process_frame w10 src1 srcQ (by decide) (by decide)

/-! ## Claim C1 -/

set_option maxRecDepth 8000 in
/-- C1 evidence: after Process(src1) then Remove(src1) (both non-dry-run)
the key is gone from the Link Record, but every link recorded by Process is
still present on disk: remove_file deletes only symlinks, while create_link
made hard links (regular files), so the round trip leaves every recorded
link dangling under the output tree. -/
theorem C1_roundtrip_leaves_links_on_disk :
    dictGet (remove_file false (process_file false w0 src1).1 src1).files src1 = none
    ∧ dictGet (process_file false w0 src1).1.files src1 =
        some ["/Users/isaacfidler/Splice-Organized/All/P__kick.wav",
              "/Users/isaacfidler/Splice-Organized/One_Shots/Kicks/P__kick.wav",
              "/Users/isaacfidler/Splice-Organized/Genres/Other/P__kick.wav"]
    ∧ (["/Users/isaacfidler/Splice-Organized/All/P__kick.wav",
        "/Users/isaacfidler/Splice-Organized/One_Shots/Kicks/P__kick.wav",
        "/Users/isaacfidler/Splice-Organized/Genres/Other/P__kick.wav"].all
        fun l => existsAt (remove_file false (process_file false w0 src1).1 src1).fs l) = true := by
  decide

/-! ## Claim C2 -/

/-- C2 evidence: with dry_run set, validate still deletes a recorded symlink
from disk (the unlink calls in validate are not gated by dry_run; only the
state-file write is), so dry-run is not free of deletions. -/
theorem C2_dry_run_validate_still_deletes :
    isSymlinkAt wC2.fs linkC2 = true
    ∧ entryAt (validate true wC2).fs linkC2 = none
    ∧ (validate true wC2).saved = wC2.saved := by
  decide
